import Mathlib

/-!
Verification of the Beurer TL100 BLE light plugin core (`src/index.js`):
the command framer/checksum, the dual-channel lamp state reconciler, the
notification decoder, and the connection manager with its idle timeout.
All definitions are shallow embeddings of the JavaScript source; bytes are
modelled as `Nat` (the source never masks array entries to 8 bits before
`Buffer.from`).
-/

namespace Beurer

/-- `BeurerLight.checkCode(start, finish, bytes)`: the JS loop
`for (let i = start; i < finish - start; i++) b = bytes[start+i] ^ b`
starting from `b = 0`.  Out-of-range reads (which never occur for the
call site `start = 0`, `finish = len - 2`) default to 0. -/
def checkCode (start finish : Nat) (bytes : List Nat) : Nat :=
  (List.range' start (finish - start - start)).foldl
    (fun b i => Nat.xor (bytes.getD (start + i) 0) b) 0

/-- `BeurerLight.getBytes(input)`: overwrite byte 0 with `input.length - 1`,
overwrite the second-to-last byte with `checkCode(0, len - 2, inputBytes)`,
prepend the header `[254, 239, 10, input.length + 8 - 4, 171, 170]` and
append the terminator `[13, 10]`. -/
def getBytes (input : List Nat) : List Nat :=
  let inputBytes := input.set 0 (input.length - 1)
  let inputBytes2 := inputBytes.set (inputBytes.length - 2)
      (checkCode 0 (inputBytes.length - 2) inputBytes)
  [254, 239, 10, input.length + 8 - 4, 171, 170] ++ inputBytes2 ++ [13, 10]

/-- XOR-fold of a list of bytes, used to state the checksum window
("the XOR of payload bytes at indices 0 through len-3"). -/
def xorBytes (l : List Nat) : Nat := l.foldl Nat.xor 0

theorem checkCode_zero_eq_xorBytes_take (p : List Nat) (m : Nat) (hm : m ≤ p.length) :
    checkCode 0 m p = xorBytes (p.take m) := by
  unfold checkCode xorBytes
  simp only [Nat.sub_zero, Nat.zero_add, ← List.range_eq_range']
  induction m with
  | zero => simp
  | succ k ih =>
      have hk : k ≤ p.length := Nat.le_of_succ_le hm
      have hk' : k < p.length := Nat.lt_of_succ_le hm
      rw [List.range_succ, List.foldl_append, ih hk]
      have htake : p.take (k + 1) = p.take k ++ [p.get ⟨k, hk'⟩] := by
        rw [List.take_succ]
        simp [List.getElem?_eq_getElem hk', List.get_eq_getElem]
      rw [htake, List.foldl_append]
      simp only [List.foldl_cons, List.foldl_nil]
      have hgd : p.getD k 0 = p.get ⟨k, hk'⟩ := by
        simp [List.getD_eq_getElem?_getD, List.getElem?_eq_getElem hk', List.get_eq_getElem]
      rw [hgd]
      exact Nat.xor_comm _ _

/-- C1: for every payload of length ≥ 3, `getBytes` produces exactly the
6-byte header `[254, 239, 10, len+4, 171, 170]`, then the payload with byte 0
overwritten by `len - 1` and its second-to-last byte overwritten by the XOR
of payload bytes at indices 0 through `len - 3` (taken after the length
overwrite), then the terminator `[13, 10]`; encoding `[0,55,1,0,85]`
overwrites byte 0 with `4`, and re-encoding the status-request payload
bodies reproduces the two documented golden frames. -/
theorem getBytes_frame_layout (input : List Nat) (h : 3 ≤ input.length) :
    (getBytes input =
      [254, 239, 10, input.length + 4, 171, 170]
        ++ ((input.set 0 (input.length - 1)).set (input.length - 2)
              (xorBytes ((input.set 0 (input.length - 1)).take (input.length - 2))))
        ++ [13, 10])
    ∧ (getBytes [0, 55, 1, 0, 85]).getD 6 0 = 4
    ∧ getBytes [4, 48, 1, 53, 85] = [254, 239, 10, 9, 171, 170, 4, 48, 1, 53, 85, 13, 10]
    ∧ getBytes [4, 48, 2, 54, 85] = [254, 239, 10, 9, 171, 170, 4, 48, 2, 54, 85, 13, 10] := by
  refine ⟨?_, by decide, by decide, by decide⟩
  have hlen : (input.set 0 (input.length - 1)).length = input.length := List.length_set ..
  simp only [getBytes, hlen]
  rw [checkCode_zero_eq_xorBytes_take (input.set 0 (input.length - 1)) (input.length - 2)
      (by rw [hlen]; omega)]
  have h84 : input.length + 8 - 4 = input.length + 4 := by omega
  rw [h84]

/-- Witness for C1 at the concrete white status-request payload body. -/
theorem getBytes_frame_layout_witness :
    getBytes [4, 48, 1, 53, 85] = [254, 239, 10, 9, 171, 170, 4, 48, 1, 53, 85, 13, 10] :=
  (getBytes_frame_layout [4, 48, 1, 53, 85] (by decide)).2.2.1

/-! ### Color converter (`color-convert` dependency, used by the source) -/

/-- JavaScript `Math.round` on a nonnegative rational: round half up. -/
def jsRound (q : ℚ) : ℤ := ⌊q + 1 / 2⌋

/-- One channel of `color-convert`'s `hsl.rgb` inner loop (value before `* 255`). -/
def hslRgbVal (t1 t2 t3c : ℚ) : ℚ :=
  let t3a := if t3c < 0 then t3c + 1 else t3c
  let t3 := if t3a > 1 then t3a - 1 else t3a
  if 6 * t3 < 1 then t1 + (t2 - t1) * 6 * t3
  else if 2 * t3 < 1 then t2
  else if 3 * t3 < 2 then t1 + (t2 - t1) * (2 / 3 - t3) * 6
  else t1

/-- `color-convert`'s `convert.hsl.rgb` (rounded wrapper), over exact rationals. -/
def hslToRgb (h0 s0 l0 : ℚ) : Nat × Nat × Nat :=
  let h := h0 / 360
  let s := s0 / 100
  let l := l0 / 100
  if s = 0 then
    let v := (jsRound (l * 255)).toNat
    (v, v, v)
  else
    let t2 := if l < 1 / 2 then l * (1 + s) else l + s - l * s
    let t1 := 2 * l - t2
    ((jsRound (hslRgbVal t1 t2 (h + 1 / 3) * 255)).toNat,
     (jsRound (hslRgbVal t1 t2 h * 255)).toNat,
     (jsRound (hslRgbVal t1 t2 (h - 1 / 3) * 255)).toNat)

/-- `color-convert`'s `convert.rgb.hsl` (rounded wrapper); returns the
`(hue, saturation)` pair stored by `handleNotification` (lightness discarded). -/
def rgbToHsl (r0 g0 b0 : Nat) : ℚ × ℚ :=
  let r : ℚ := r0 / 255
  let g : ℚ := g0 / 255
  let b : ℚ := b0 / 255
  let mn := min r (min g b)
  let mx := max r (max g b)
  let delta := mx - mn
  let h0 : ℚ :=
    if mx = mn then 0
    else if r = mx then (g - b) / delta
    else if g = mx then 2 + (b - r) / delta
    else 4 + (r - g) / delta
  let h1 := min (h0 * 60) 360
  let h := if h1 < 0 then h1 + 360 else h1
  let l := (mn + mx) / 2
  let s : ℚ :=
    if mx = mn then 0
    else if l ≤ 1 / 2 then delta / (mx + mn)
    else delta / (2 - mx - mn)
  ((jsRound h : ℤ), (jsRound (s * 100) : ℤ))

/-! ### Dual-channel state reconciler (`BeurerLight` instance fields and
setters).  Each setter returns the new state together with the list of
command payload bodies it hands to `send` (in emission order). -/

/-- The `BeurerLight` per-accessory reconciled state (constructor fields). -/
structure LampState where
  hue : ℚ
  saturation : ℚ
  brightness : Nat
  whiteBrightness : Nat
  colorBrightness : Nat
  whiteOn : Bool
  colorOn : Bool
  whichLampToControl : Nat
deriving Repr, DecidableEq

/-- Constructor defaults of `BeurerLight`. -/
def initState : LampState :=
  { hue := 0, saturation := 0, brightness := 50,
    whiteBrightness := 50, colorBrightness := 50,
    whiteOn := false, colorOn := false, whichLampToControl := 1 }

/-- `BeurerLight.setLampOn(value)`: early return when turning on while the
color channel is on; otherwise pick the channel, update the on-flags and
emit `[0, value ? 55 : 53, channel, 0, 85]`. -/
def setLampOn (value : Bool) (s : LampState) : LampState × List (List Nat) :=
  if value && s.colorOn then (s, [])
  else
    let w : Nat := if !value && s.colorOn then 2 else 1
    let s1 :=
      if value then
        { s with whichLampToControl := w, whiteOn := true, colorOn := false }
      else
        { s with whichLampToControl := w, whiteOn := false, colorOn := false }
    let onOffBit : Nat := if value then 55 else 53
    (s1, [[0, onOffBit, w, 0, 85]])

/-- `BeurerLight.isLampOn()`. -/
def isLampOn (s : LampState) : Bool := s.whiteOn || s.colorOn

/-- `BeurerLight.getBrightness()`. -/
def getBrightness (s : LampState) : Nat :=
  if s.colorOn then s.colorBrightness else s.whiteBrightness

/-- `BeurerLight.setBrightness(value)`: write to whichever channel is on
(color if `colorOn`, else white) and emit `[0, 49, channel, value, 0, 85]`. -/
def setBrightness (value : Nat) (s : LampState) : LampState × List (List Nat) :=
  if s.colorOn then
    ({ s with colorBrightness := value, whichLampToControl := 2 },
     [[0, 49, 2, value, 0, 85]])
  else
    ({ s with whiteBrightness := value, whichLampToControl := 1 },
     [[0, 49, 1, value, 0, 85]])

/-- `BeurerLight.setRgb()`: enable the color channel if needed (emitting
`[4, 55, 2, 0, 85]`), force `colorOn := true, whiteOn := false`, then emit
`[0, 50, r, g, b, 0, 85]` from `(hue, saturation, 50)` converted to RGB. -/
def setRgb (s : LampState) : LampState × List (List Nat) :=
  let stepEnable : LampState × List (List Nat) :=
    if !s.colorOn then ({ s with colorOn := true }, [[4, 55, 2, 0, 85]])
    else (s, [])
  let s2 := { stepEnable.1 with colorOn := true, whiteOn := false }
  let rgb := hslToRgb s2.hue s2.saturation 50
  (s2, stepEnable.2 ++ [[0, 50, rgb.1, rgb.2.1, rgb.2.2, 0, 85]])

/-- `BeurerLight.setHue(value)`. -/
def setHue (value : ℚ) (s : LampState) : LampState × List (List Nat) :=
  setRgb { s with hue := value }

/-- `BeurerLight.setSaturation(value)`. -/
def setSaturation (value : ℚ) (s : LampState) : LampState × List (List Nat) :=
  setRgb { s with saturation := value }

/-- `BeurerLight.handleNotification(data)` restricted to its effect on the
lamp state (its trailing `updateHomeKitState` / `resetConnectionTimeout`
calls touch no `LampState` field; the timer effect is modelled separately). -/
def handleNotification (data : List Nat) (s : LampState) : LampState :=
  if data.getD 8 0 = 2 then
    let red := data.getD 13 0
    let green := data.getD 14 0
    let blue := data.getD 15 0
    let hsl := rgbToHsl red green blue
    { s with colorBrightness := data.getD 10 0,
             colorOn := data.getD 9 0 == 1,
             hue := hsl.1, saturation := hsl.2 }
  else
    { s with whiteBrightness := data.getD 10 0,
             whiteOn := data.getD 9 0 == 1 }

/-- The brightness value `updateHomeKitState` pushes to the platform's
Brightness characteristic. -/
def homeKitBrightness (s : LampState) : Nat :=
  if s.whiteOn then s.whiteBrightness else s.colorBrightness

/-- One external set-request against the reconciler. -/
inductive Op where
  | lampOn (value : Bool)
  | brightness (value : Nat)
  | hue (value : ℚ)
  | saturation (value : ℚ)
deriving Repr, DecidableEq

/-- Apply one set-request, returning the new state and the emitted payloads. -/
def applyOp : Op → LampState → LampState × List (List Nat)
  | Op.lampOn v, s => setLampOn v s
  | Op.brightness v, s => setBrightness v s
  | Op.hue v, s => setHue v s
  | Op.saturation v, s => setSaturation v s

/-- Run a sequence of set-requests, discarding emitted payloads. -/
def runOps (ops : List Op) (s : LampState) : LampState :=
  ops.foldl (fun st op => (applyOp op st).1) s

/-- The two channels are never simultaneously on. -/
def mutexOk (s : LampState) : Bool := !(s.whiteOn && s.colorOn)

theorem applyOp_preserves_mutex (op : Op) (s : LampState) (hs : mutexOk s = true) :
    mutexOk (applyOp op s).1 = true := by
  cases op with
  | lampOn v =>
      simp only [applyOp, setLampOn]
      cases v <;> cases hc : s.colorOn <;> simp_all [mutexOk]
  | brightness v =>
      simp only [applyOp, setBrightness]
      by_cases hc : s.colorOn = true <;> simp_all [mutexOk]
  | hue v => simp [applyOp, setHue, setRgb, mutexOk]
  | saturation v => simp [applyOp, setSaturation, setRgb, mutexOk]

theorem runOps_preserves_mutex (ops : List Op) (s : LampState) (hs : mutexOk s = true) :
    mutexOk (runOps ops s) = true := by
  induction ops generalizing s with
  | nil => exact hs
  | cons op rest ih =>
      simp only [runOps, List.foldl_cons]
      exact ih _ (applyOp_preserves_mutex op s hs)

/-- C2: from the constructor's initial state, after any finite sequence of
`setLampOn` / `setBrightness` / `setHue` / `setSaturation` calls, `whiteOn`
and `colorOn` are never both true. -/
theorem reconciler_mutual_exclusion (ops : List Op) :
    ((runOps ops initState).whiteOn && (runOps ops initState).colorOn) = false := by
  have h := runOps_preserves_mutex ops initState (by decide)
  cases hw : (runOps ops initState).whiteOn <;>
    cases hc : (runOps ops initState).colorOn <;> simp_all [mutexOk]

/-- C6: `setLampOn(true)` while `colorOn` is already true is a no-op: the
state (every field) is returned unchanged and no command is emitted. -/
theorem setLampOn_true_colorOn_noop (s : LampState) (hc : s.colorOn = true) :
    setLampOn true s = (s, []) := by
  simp [setLampOn, hc]

/-- Witness for C6 at a concrete color-on state. -/
theorem setLampOn_true_colorOn_noop_witness :
    setLampOn true { initState with colorOn := true } = ({ initState with colorOn := true }, []) :=
  setLampOn_true_colorOn_noop { initState with colorOn := true } rfl

/-- C7: in every non-no-op case, `setLampOn` emits exactly the payload
`[0, value ? 55 : 53, channel, 0, 85]` with channel 2 exactly when the call
turns the lamp off while `colorOn` is true, and channel 1 otherwise (in
particular when turning off while `colorOn` is false). -/
theorem setLampOn_emits (value : Bool) (s : LampState)
    (h : ¬(value = true ∧ s.colorOn = true)) :
    (setLampOn value s).2 =
      [[0, if value then 55 else 53,
        if value = false ∧ s.colorOn = true then 2 else 1, 0, 85]] := by
  cases value <;> cases hc : s.colorOn <;> simp_all [setLampOn]

/-- Witness for C7: turning off while `colorOn` is false selects channel 1. -/
theorem setLampOn_emits_witness :
    (setLampOn false initState).2 = [[0, 53, 1, 0, 85]] := by
  have h := setLampOn_emits false initState (by simp [initState])
  simpa [initState] using h

/-- C10: `setLampOn(false)` while both channels are already off is not a
no-op: it emits `[0, 53, 1, 0, 85]` and sets `whichLampToControl := 1`
(the rest of the state is unchanged), in contrast with `setLampOn(true)`
while `colorOn` is true, which emits nothing. -/
theorem setLampOn_false_while_off (s : LampState)
    (hw : s.whiteOn = false) (hc : s.colorOn = false) :
    setLampOn false s = ({ s with whichLampToControl := 1 }, [[0, 53, 1, 0, 85]])
    ∧ ∀ t : LampState, t.colorOn = true → (setLampOn true t).2 = [] := by
  constructor
  · cases s
    simp_all [setLampOn]
  · intro t ht
    simp [setLampOn, ht]

/-- Witness for C10 at the initial (fully off) state. -/
theorem setLampOn_false_while_off_witness :
    setLampOn false initState = ({ initState with whichLampToControl := 1 }, [[0, 53, 1, 0, 85]]) :=
  (setLampOn_false_while_off initState rfl rfl).1

/-- C4 counterexample: with both channels off, `whiteBrightness = 50` and
`colorBrightness = 70`, `updateHomeKitState` pushes 70 (the color channel's
brightness), not the white channel's 50 that the claim requires, while
`getBrightness` returns 50. -/
theorem homeKitBrightness_not_white_default :
    ({ initState with colorBrightness := 70 } : LampState).whiteOn = false
    ∧ ({ initState with colorBrightness := 70 } : LampState).colorOn = false
    ∧ ({ initState with colorBrightness := 70 } : LampState).whiteBrightness = 50
    ∧ homeKitBrightness { initState with colorBrightness := 70 } = 70
    ∧ getBrightness { initState with colorBrightness := 70 } = 50 := by
  refine ⟨rfl, rfl, rfl, ?_, ?_⟩ <;> decide

/-- C4 amended: `getBrightness` returns the on channel's brightness and
defaults to the white channel's value when neither channel is on, but the
brightness pushed by `updateHomeKitState` keys on `whiteOn`: it agrees with
`getBrightness` whenever at least one channel is on (given the channels are
not both on), and defaults to the color channel's brightness when neither
channel is on. -/
theorem visible_brightness_by_channel (s : LampState)
    (hmx : ¬(s.whiteOn = true ∧ s.colorOn = true)) :
    (s.colorOn = true →
        getBrightness s = s.colorBrightness ∧ homeKitBrightness s = s.colorBrightness)
    ∧ (s.whiteOn = true →
        getBrightness s = s.whiteBrightness ∧ homeKitBrightness s = s.whiteBrightness)
    ∧ (s.whiteOn = false → s.colorOn = false →
        getBrightness s = s.whiteBrightness ∧ homeKitBrightness s = s.colorBrightness) := by
  cases hw : s.whiteOn <;> cases hc : s.colorOn <;>
    simp_all [getBrightness, homeKitBrightness]

/-- Witness for the amended C4 at a concrete white-on state. -/
theorem visible_brightness_by_channel_witness :
    getBrightness { initState with whiteOn := true } =
      ({ initState with whiteOn := true } : LampState).whiteBrightness
    ∧ homeKitBrightness { initState with whiteOn := true } =
      ({ initState with whiteOn := true } : LampState).whiteBrightness :=
  ((visible_brightness_by_channel { initState with whiteOn := true }
      (by simp [initState])).2.1) rfl

/-- C9: on an inbound frame of sufficient length, a discriminator byte 2 at
offset 8 makes `handleNotification` update only `colorBrightness` (offset 10),
`colorOn` (offset 9 = 1), and `hue`/`saturation` (from the RGB triple at
offsets 13–15 converted to HSL), leaving the white fields unchanged; any
other discriminator updates only `whiteBrightness` and `whiteOn`, leaving
the color fields unchanged. -/
theorem handleNotification_routing (data : List Nat) (s : LampState)
    (hlen : 16 ≤ data.length) :
    (data.getD 8 0 = 2 →
        (handleNotification data s).whiteOn = s.whiteOn
        ∧ (handleNotification data s).whiteBrightness = s.whiteBrightness
        ∧ (handleNotification data s).colorBrightness = data.getD 10 0
        ∧ (handleNotification data s).colorOn = (data.getD 9 0 == 1)
        ∧ (handleNotification data s).hue
            = (rgbToHsl (data.getD 13 0) (data.getD 14 0) (data.getD 15 0)).1
        ∧ (handleNotification data s).saturation
            = (rgbToHsl (data.getD 13 0) (data.getD 14 0) (data.getD 15 0)).2)
    ∧ (data.getD 8 0 ≠ 2 →
        (handleNotification data s).colorOn = s.colorOn
        ∧ (handleNotification data s).colorBrightness = s.colorBrightness
        ∧ (handleNotification data s).hue = s.hue
        ∧ (handleNotification data s).saturation = s.saturation
        ∧ (handleNotification data s).whiteBrightness = data.getD 10 0
        ∧ (handleNotification data s).whiteOn = (data.getD 9 0 == 1)) := by
  constructor
  · intro h2
    simp only [List.getD_eq_getElem?_getD] at h2 ⊢
    simp [handleNotification, h2]
  · intro h2
    simp only [List.getD_eq_getElem?_getD] at h2 ⊢
    simp [handleNotification, h2]

/-- Witness for C9 on a concrete 16-byte color status frame. -/
theorem handleNotification_routing_witness :
    (handleNotification [254, 239, 10, 9, 171, 170, 4, 48, 2, 1, 70, 0, 0, 255, 0, 0] initState).colorOn
      = true
    ∧ (handleNotification [254, 239, 10, 9, 171, 170, 4, 48, 2, 1, 70, 0, 0, 255, 0, 0] initState).whiteOn
      = initState.whiteOn := by
  have h := handleNotification_routing
      [254, 239, 10, 9, 171, 170, 4, 48, 2, 1, 70, 0, 0, 255, 0, 0] initState (by decide)
  have h2 := h.1 (by decide)
  exact ⟨by rw [h2.2.2.2.1]; decide, h2.1⟩

/-! ### Connection manager (`connect` / `send` / `resetConnectionTimeout` /
`disconnect`).  Asynchronous callback I/O is modelled by an environment
fixing each transport outcome; time is an explicit counter, the pending
`setTimeout` an absolute deadline. -/

/-- `this.connectionTimeout` (constructor: 5000 ms). -/
def connectionTimeout : Nat := 5000

/-- Connection-side instance state of `BeurerLight`. -/
structure ConnState where
  peripheralSet : Bool
  lampControl : Bool
  connected : Bool
  deadline : Option Nat
  now : Nat
deriving Repr, DecidableEq

/-- Outcomes of the transport layer for one `connect`/`send` attempt. -/
structure BleEnv where
  connectOk : Bool
  discoverOk : Bool
  hasLampControl : Bool
  hasNotify : Bool
  writeOk : Bool
deriving Repr, DecidableEq

/-- Errors that reject a `connect` or `send` promise in the source. -/
inductive BleError where
  | connectError
  | discoveryError
  | missingCharacteristics
  | writeError
deriving Repr, DecidableEq

/-- How the `connect()` promise settles. -/
inductive ConnectResult where
  /-- No peripheral: log a warning and return early — the async function
  resolves (with `undefined`) without attempting any connection. -/
  | earlyReturn
  /-- The full connect/discover/subscribe path completed. -/
  | resolved
  /-- The promise was rejected with a transport error. -/
  | rejected (e : BleError)
deriving Repr, DecidableEq

/-- Whether a `connect()` outcome is a rejection (a failure the caller sees). -/
def ConnectResult.isRejected : ConnectResult → Bool
  | ConnectResult.rejected _ => true
  | _ => false

/-- `BeurerLight.connect()`: early return when `this.peripheral` is null;
otherwise connect (setting `connected := true` on transport success),
discover characteristics (storing `this.lampControl`), reject when either
required characteristic is missing, else subscribe and resolve.  No branch
touches the idle-timeout deadline. -/
def connect (env : BleEnv) (s : ConnState) : ConnectResult × ConnState :=
  if s.peripheralSet = false then (ConnectResult.earlyReturn, s)
  else if env.connectOk = false then (ConnectResult.rejected BleError.connectError, s)
  else
    let s1 := { s with connected := true }
    if env.discoverOk = false then (ConnectResult.rejected BleError.discoveryError, s1)
    else
      let s2 := { s1 with lampControl := env.hasLampControl }
      if (env.hasLampControl && env.hasNotify) = false then
        (ConnectResult.rejected BleError.missingCharacteristics, s2)
      else (ConnectResult.resolved, s2)

/-- `BeurerLight.resetConnectionTimeout()`: clear any pending timer and arm
a fresh one `connectionTimeout` ms from now. -/
def resetConnectionTimeout (s : ConnState) : ConnState :=
  { s with deadline := some (s.now + connectionTimeout) }

/-- `BeurerLight.disconnect()`: close the link only if a peripheral is set
and the manager believes itself connected. -/
def disconnect (s : ConnState) : ConnState :=
  if s.peripheralSet && s.connected then { s with connected := false } else s

/-- Let `dt` ms elapse with no write and no notification: if the armed
timer's deadline is reached, it fires `disconnect()` and is spent. -/
def elapse (dt : Nat) (s : ConnState) : ConnState :=
  let t := s.now + dt
  match s.deadline with
  | some d =>
      if d ≤ t then { disconnect { s with now := t } with deadline := none }
      else { s with now := t }
  | none => { s with now := t }

/-- How the `send()` promise settles. -/
inductive SendResult where
  | ok
  /-- The lazy `connect()` rejected; `send` propagates that rejection. -/
  | connectFailed (e : BleError)
  /-- The transport write's callback reported an error. -/
  | writeFailed
  /-- `this.lampControl` was still null at the write (`TypeError` in JS). -/
  | nullCharacteristic
deriving Repr, DecidableEq

/-- Observable steps taken by one `send()` call, in order. -/
inductive BleEvent where
  | connectCall
  | timerReset
  | transportWrite (frame : List Nat)
deriving Repr, DecidableEq

/-- `BeurerLight.send(bytes)`: lazily `connect()` when not connected or the
control characteristic is missing (propagating a rejection), then reset the
idle timer — before the transport write and regardless of its outcome —
frame the payload with `getBytes` and write it. -/
def send (env : BleEnv) (s : ConnState) (bytes : List Nat) :
    SendResult × ConnState × List BleEvent :=
  if (!s.connected || !s.lampControl) = true then
    match connect env s with
    | (ConnectResult.rejected e, s1) =>
        (SendResult.connectFailed e, s1, [BleEvent.connectCall])
    | (_, s1) =>
        let s2 := resetConnectionTimeout s1
        if s2.lampControl = false then
          (SendResult.nullCharacteristic, s2, [BleEvent.connectCall, BleEvent.timerReset])
        else
          let frame := getBytes bytes
          ((if env.writeOk then SendResult.ok else SendResult.writeFailed), s2,
           [BleEvent.connectCall, BleEvent.timerReset, BleEvent.transportWrite frame])
  else
    let s2 := resetConnectionTimeout s
    let frame := getBytes bytes
    ((if env.writeOk then SendResult.ok else SendResult.writeFailed), s2,
     [BleEvent.timerReset, BleEvent.transportWrite frame])

/-- A notification, in full: update the lamp state and reset the idle timer
(the connection-side half of `handleNotification`). -/
def handleNotificationConn (data : List Nat) (ls : LampState) (cs : ConnState) :
    LampState × ConnState :=
  (handleNotification data ls, resetConnectionTimeout cs)

/-- Number of `connect()` calls recorded in a `send` trace. -/
def countConnects : List BleEvent → Nat
  | [] => 0
  | BleEvent.connectCall :: rest => countConnects rest + 1
  | _ :: rest => countConnects rest

/-- A transport environment where every operation succeeds. -/
def allOkEnv : BleEnv :=
  { connectOk := true, discoverOk := true, hasLampControl := true,
    hasNotify := true, writeOk := true }

/-- Healthy transport except that the write callback reports an error. -/
def writeFailEnv : BleEnv := { allOkEnv with writeOk := false }

/-- Transport whose connect callback reports an error. -/
def connectFailEnv : BleEnv := { allOkEnv with connectOk := false }

/-- A `BeurerLight` before any peripheral has been attached. -/
def noPeriphState : ConnState :=
  { peripheralSet := false, lampControl := false, connected := false,
    deadline := none, now := 0 }

/-- A disconnected manager with a peripheral attached. -/
def discState : ConnState :=
  { peripheralSet := true, lampControl := false, connected := false,
    deadline := none, now := 0 }

/-- A connected manager with the control characteristic in hand, timer armed
for 1000 ms, current time 2000 ms. -/
def connState0 : ConnState :=
  { peripheralSet := true, lampControl := true, connected := true,
    deadline := some 1000, now := 2000 }

/-- C3 counterexample: invoking `connect()` with no peripheral attached does
not reject — it takes the early-return path, the promise resolves with no
error surfaced to the caller, and the manager stays disconnected. -/
theorem connect_noPeripheral_no_error :
    (connect allOkEnv noPeriphState).1 = ConnectResult.earlyReturn
    ∧ (connect allOkEnv noPeriphState).1.isRejected = false
    ∧ (connect allOkEnv noPeriphState).2.connected = false := by decide

/-- C3 amended: when `connect()` is invoked while no peripheral is attached,
it logs a warning and returns early: no connection is attempted, the state
is unchanged, and the call completes successfully (no error, and in
particular no `NoPeripheralError`, reaches the caller). -/
theorem connect_noPeripheral_early_return (env : BleEnv) (s : ConnState)
    (h : s.peripheralSet = false) :
    connect env s = (ConnectResult.earlyReturn, s)
    ∧ (connect env s).1.isRejected = false := by
  simp [connect, h, ConnectResult.isRejected]

/-- Witness for the amended C3 at the concrete no-peripheral state. -/
theorem connect_noPeripheral_early_return_witness :
    connect allOkEnv noPeriphState = (ConnectResult.earlyReturn, noPeriphState) :=
  (connect_noPeripheral_early_return allOkEnv noPeriphState rfl).1

/-- C5 counterexample: with the timer armed for 1000 ms at time 2000 ms, a
`send` whose transport write fails still re-arms the idle deadline to
`2000 + 5000` — the code resets the timer before the write, so a failed
write does reset the deadline, contrary to the claim. -/
theorem send_failed_write_resets_timer :
    (send writeFailEnv connState0 [0, 53, 1, 0, 85]).1 = SendResult.writeFailed
    ∧ connState0.deadline = some 1000
    ∧ (send writeFailEnv connState0 [0, 53, 1, 0, 85]).2.1.deadline = some 7000 := by
  decide

theorem deadline_ite (c : Prop) [Decidable c]
    (x y : SendResult × ConnState × List BleEvent) (d : Option Nat)
    (hx : x.2.1.deadline = d) (hy : y.2.1.deadline = d) :
    (if c then x else y).2.1.deadline = d := by
  split <;> assumption

theorem connect_preserves_now (env : BleEnv) (s : ConnState) :
    (connect env s).2.now = s.now := by
  unfold connect
  by_cases hp : s.peripheralSet = false <;>
    by_cases hco : env.connectOk = false <;>
      by_cases hd : env.discoverOk = false <;>
        by_cases hch : (env.hasLampControl && env.hasNotify) = false <;>
          simp [hp, hco, hd, hch]

theorem send_unfold_lazy (env : BleEnv) (s : ConnState) (bytes : List Nat)
    (hcond : (!s.connected || !s.lampControl) = true) :
    send env s bytes =
      match connect env s with
      | (ConnectResult.rejected e, s1) =>
          (SendResult.connectFailed e, s1, [BleEvent.connectCall])
      | (_, s1) =>
          if (resetConnectionTimeout s1).lampControl = false then
            (SendResult.nullCharacteristic, resetConnectionTimeout s1,
             [BleEvent.connectCall, BleEvent.timerReset])
          else
            ((if env.writeOk then SendResult.ok else SendResult.writeFailed),
             resetConnectionTimeout s1,
             [BleEvent.connectCall, BleEvent.timerReset,
              BleEvent.transportWrite (getBytes bytes)]) := by
  unfold send
  rw [if_pos hcond]

/-- C5 amended: the idle deadline (5000 ms) is re-armed on every `send` that
reaches the post-connect stage — whether the call was already connected or
had to lazily `connect()` (any outcome short of a rejected connect) — before
the transport write and regardless of the write's success; it is re-armed on
every inbound notification; `connect` alone never changes the deadline; if
the armed deadline passes while connected (peripheral attached) with no
reset, the timer fires and the connection transitions to disconnected; and
any reset within the 5000 ms window defers that disconnect. -/
theorem idle_timeout_discipline (env : BleEnv) (s : ConnState)
    (bytes data : List Nat) (ls : LampState) (dt d : Nat) :
    (s.connected = true → s.lampControl = true →
        (send env s bytes).2.1.deadline = some (s.now + connectionTimeout))
    ∧ ((connect env s).1.isRejected = false →
        (send env s bytes).2.1.deadline = some (s.now + connectionTimeout))
    ∧ (handleNotificationConn data ls s).2.deadline = some (s.now + connectionTimeout)
    ∧ (connect env s).2.deadline = s.deadline
    ∧ (s.connected = true → s.peripheralSet = true → s.deadline = some d →
        d ≤ s.now + dt → (elapse dt s).connected = false)
    ∧ (s.connected = true → dt < connectionTimeout →
        (elapse dt (resetConnectionTimeout s)).connected = true) := by
  refine ⟨?_, ?_, rfl, ?_, ?_, ?_⟩
  · intro hc hl
    simp [send, hc, hl, resetConnectionTimeout]
  · intro hnr
    by_cases hcond : (!s.connected || !s.lampControl) = true
    · have hnow : (connect env s).2.now = s.now := connect_preserves_now env s
      rw [send_unfold_lazy env s bytes hcond]
      rcases hr : connect env s with ⟨r, s1⟩
      rw [hr] at hnow hnr
      have hnow2 : s1.now = s.now := hnow
      cases r with
      | rejected e => simp [ConnectResult.isRejected] at hnr
      | earlyReturn =>
          refine deadline_ite _ _ _ _ ?_ ?_ <;> simp [resetConnectionTimeout, hnow2]
      | resolved =>
          refine deadline_ite _ _ _ _ ?_ ?_ <;> simp [resetConnectionTimeout, hnow2]
    · unfold send
      rw [if_neg hcond]
      simp [resetConnectionTimeout]
  · unfold connect
    by_cases hp : s.peripheralSet = false <;>
      by_cases hco : env.connectOk = false <;>
        by_cases hd : env.discoverOk = false <;>
          by_cases hch : (env.hasLampControl && env.hasNotify) = false <;>
            simp [hp, hco, hd, hch]
  · intro hc hp hdl hle
    simp [elapse, hdl, hle, disconnect, hp, hc]
  · intro hc hdt
    have : ¬ (s.now + connectionTimeout ≤ s.now + dt) := by omega
    simp [elapse, resetConnectionTimeout, this, hc]

/-- Witness for the amended C5: a failed write from the concrete connected
state still re-arms the deadline to `now + 5000`, and a lazy-reconnect send
from the concrete disconnected state (whose `connect()` resolves) arms it
to `now + 5000` as well. -/
theorem idle_timeout_discipline_witness :
    (send writeFailEnv connState0 [0, 53, 1, 0, 85]).2.1.deadline = some 7000
    ∧ (send allOkEnv discState [0, 53, 1, 0, 85]).2.1.deadline = some 5000 :=
  ⟨(idle_timeout_discipline writeFailEnv connState0 [0, 53, 1, 0, 85] [] initState 0 0).1
      rfl rfl,
   (idle_timeout_discipline allOkEnv discState [0, 53, 1, 0, 85] [] initState 0 0).2.1
      (by decide)⟩

theorem countConnects_ite (c : Prop) [Decidable c]
    (x y : SendResult × ConnState × List BleEvent) (n : Nat)
    (hx : countConnects x.2.2 = n) (hy : countConnects y.2.2 = n) :
    countConnects (if c then x else y).2.2 = n := by
  split <;> assumption

theorem headTrace_ite (c : Prop) [Decidable c]
    (x y : SendResult × ConnState × List BleEvent) (v : BleEvent)
    (hx : x.2.2.head? = some v) (hy : y.2.2.head? = some v) :
    (if c then x else y).2.2.head? = some v := by
  split <;> assumption

theorem send_unfold_disconnected (env : BleEnv) (s : ConnState) (bytes : List Nat)
    (hcond : (!s.connected || !s.lampControl) = true) :
    send env s bytes =
      match connect env s with
      | (ConnectResult.rejected e, s1) =>
          (SendResult.connectFailed e, s1, [BleEvent.connectCall])
      | (_, s1) =>
          if (resetConnectionTimeout s1).lampControl = false then
            (SendResult.nullCharacteristic, resetConnectionTimeout s1,
             [BleEvent.connectCall, BleEvent.timerReset])
          else
            ((if env.writeOk then SendResult.ok else SendResult.writeFailed),
             resetConnectionTimeout s1,
             [BleEvent.connectCall, BleEvent.timerReset,
              BleEvent.transportWrite (getBytes bytes)]) := by
  unfold send
  rw [if_pos hcond]

/-- C8: a `send` invoked while disconnected records exactly one `connect()`
call, placed before any other step (in particular before the transport
write), and propagates a rejected `connect`'s error as its own failure; a
`send` invoked while connected with the control characteristic present
records no `connect()` call and goes straight to the timer reset and the
transport write. -/
theorem send_lazy_connect (env : BleEnv) (s : ConnState) (bytes : List Nat) :
    (s.connected = false →
        countConnects (send env s bytes).2.2 = 1
        ∧ (send env s bytes).2.2.head? = some BleEvent.connectCall
        ∧ ∀ e, (connect env s).1 = ConnectResult.rejected e →
            (send env s bytes).1 = SendResult.connectFailed e)
    ∧ (s.connected = true → s.lampControl = true →
        countConnects (send env s bytes).2.2 = 0
        ∧ (send env s bytes).2.2
            = [BleEvent.timerReset, BleEvent.transportWrite (getBytes bytes)]) := by
  constructor
  · intro hc
    have hcond : (!s.connected || !s.lampControl) = true := by simp [hc]
    rw [send_unfold_disconnected env s bytes hcond]
    rcases hr : connect env s with ⟨r, s1⟩
    cases r with
    | earlyReturn =>
        refine ⟨?_, ?_, ?_⟩
        · exact countConnects_ite _ _ _ _ rfl rfl
        · exact headTrace_ite _ _ _ _ rfl rfl
        · intro e he
          exact absurd he (by simp)
    | resolved =>
        refine ⟨?_, ?_, ?_⟩
        · exact countConnects_ite _ _ _ _ rfl rfl
        · exact headTrace_ite _ _ _ _ rfl rfl
        · intro e he
          exact absurd he (by simp)
    | rejected e0 =>
        refine ⟨rfl, rfl, ?_⟩
        intro e he
        simp only [ConnectResult.rejected.injEq] at he
        subst he
        rfl
  · intro hc hl
    have hcond : ¬((!s.connected || !s.lampControl) = true) := by simp [hc, hl]
    unfold send
    rw [if_neg hcond]
    exact ⟨rfl, rfl⟩

/-- Witness for C8: from the concrete disconnected state with a failing
transport connect, `send` records exactly one `connect()` call and
propagates the connect error. -/
theorem send_lazy_connect_witness :
    countConnects (send connectFailEnv discState [0, 53, 1, 0, 85]).2.2 = 1
    ∧ (send connectFailEnv discState [0, 53, 1, 0, 85]).1
        = SendResult.connectFailed BleError.connectError := by
  have h := (send_lazy_connect connectFailEnv discState [0, 53, 1, 0, 85]).1 rfl
  exact ⟨h.1, h.2.2 BleError.connectError (by decide)⟩

end Beurer
